import Mathlib

/-
Verification development for the Load-Tester repository.

Embedded components (translated from the Python sources):
  * dev/Generate_Report.py : telemetry analysis (analyze_k6_json_with_timeline),
    endpoint resolution (get_endpoint_info_from_config), quantile computation
    (statistics.quantiles, exclusive method, as in CPython), threshold
    derivation, status classification and the windowed error-rate loop of
    generate_html_report_with_charts.
  * src/web/app.py : the live status tracker inside run_k6_test (regex and
    substring scraping of the k6 output stream) and the order of writes to the
    shared test_status table.

Modelling conventions:
  * JSON numbers are modelled as rationals; the int/float distinction (which in
    Python only affects str() formatting of pathological tag values) is not
    tracked, and non-finite float literals are outside the model.
  * Python dict keys are compared by structural equality of JSON values.
  * Exceptions are split into the channel caught by the per-record handler
    (json.JSONDecodeError, ValueError, TypeError) and the uncaught channel
    (KeyError, AttributeError) which aborts the whole analysis.
  * Endpoint configuration files are modelled as typed records, following the
    schema in the repository (name/method/url/threshold_ms per endpoint).
-/

/-! ### Python string primitives -/

/-- Whitespace characters stripped by str.strip() and matched by the regex
class backslash-s (ASCII subset). -/
def isPySpace (c : Char) : Bool :=
  c = ' ' || c = '\t' || c = '\n' || c = '\r' || c = '\x0b' || c = '\x0c'

/-- Python str.strip() on a character list. -/
def pyStripChars (l : List Char) : List Char :=
  ((l.dropWhile isPySpace).reverse.dropWhile isPySpace).reverse

/-- Python str.strip(). -/
def pyStrip (s : String) : String :=
  String.mk (pyStripChars s.data)

/-- Python str.lower() (ASCII). -/
def pyLower (s : String) : String :=
  String.mk (s.data.map Char.toLower)

/-- Python str.upper() (ASCII). -/
def pyUpper (s : String) : String :=
  String.mk (s.data.map Char.toUpper)

/-- Is `p` an initial segment of `l`? -/
def listStarts : List Char → List Char → Bool
  | [], _ => true
  | _ :: _, [] => false
  | p :: ps, c :: cs => p = c && listStarts ps cs

/-- Does `sub` occur contiguously inside `l`?  Python's `sub in l` on strings. -/
def listHasSub (sub : List Char) : List Char → Bool
  | [] => listStarts sub []
  | c :: cs => listStarts sub (c :: cs) || listHasSub sub cs

/-- Python `needle in hay` on strings. -/
def pyInStr (needle hay : String) : Bool :=
  listHasSub needle.data hay.data

/-- Python str.lstrip('/'). -/
def pyLstripSlash (s : String) : String :=
  String.mk (s.data.dropWhile (· = '/'))

/-- Digits of a decimal numeral to a natural number. -/
def digitsToNat (l : List Char) : ℕ :=
  l.foldl (fun acc c => 10 * acc + (c.toNat - '0'.toNat)) 0

/-- Python int(s) on a string: optional surrounding whitespace, optional sign,
one or more ASCII digits; anything else raises ValueError (none).
(Digit-group underscores and non-ASCII digits are not modelled.) -/
def pyIntOfString (s : String) : Option ℤ :=
  let core := pyStripChars s.data
  match core with
  | '-' :: ds => if ds ≠ [] && ds.all Char.isDigit then some (-(digitsToNat ds : ℤ)) else none
  | '+' :: ds => if ds ≠ [] && ds.all Char.isDigit then some (digitsToNat ds : ℤ) else none
  | ds => if ds ≠ [] && ds.all Char.isDigit then some (digitsToNat ds : ℤ) else none

/-- Truncation toward zero, Python int() on a float. -/
def ratTrunc (q : ℚ) : ℤ :=
  if 0 ≤ q then ⌊q⌋ else ⌈q⌉

/-- Round half to even to an integer (Python round on an exact value). -/
def roundHalfEven (q : ℚ) : ℤ :=
  let f : ℤ := ⌊q⌋
  let r : ℚ := q - f
  if r < 1/2 then f
  else if r > 1/2 then f + 1
  else if f % 2 = 0 then f else f + 1

/-- Python round(x, 2) modelled on exact rationals. -/
def round2 (q : ℚ) : ℚ :=
  (roundHalfEven (q * 100) : ℚ) / 100

/-! ### JSON values and Python dynamic operations -/

/-- A JSON value, as produced by json.loads. -/
inductive JVal where
  | null : JVal
  | jbool : Bool → JVal
  | num : ℚ → JVal
  | str : String → JVal
  | arr : List JVal → JVal
  | obj : List (String × JVal) → JVal

/-- dict.get(k): duplicate keys in a JSON text resolve to the last occurrence,
as json.loads does. -/
def jget (o : List (String × JVal)) (k : String) : Option JVal :=
  o.foldl (fun acc p => if p.1 = k then some p.2 else acc) none

/-- dict.get(k, d). -/
def jgetD (o : List (String × JVal)) (k : String) (d : JVal) : JVal :=
  (jget o k).getD d

/-- Python truthiness of a JSON value. -/
def pyTruthy : JVal → Bool
  | .null => false
  | .jbool b => b
  | .num q => decide (q ≠ 0)
  | .str s => decide (s ≠ "")
  | .arr l => !l.isEmpty
  | .obj l => !l.isEmpty

/-- Python `v > 0`: booleans compare as integers; strings, lists, dicts and
None raise TypeError (error, caught by the record handler). -/
def pyGtZero : JVal → Except Unit Bool
  | .num q => .ok (decide (0 < q))
  | .jbool b => .ok b
  | _ => .error ()

/-- Numeric content of a value that passed `pyGtZero` (True counts as 1). -/
def jvalAsRat : JVal → ℚ
  | .num q => q
  | .jbool b => if b then 1 else 0
  | _ => 0

/-- Python int(v): strings parsed, numbers truncated, booleans widened;
None, lists and dicts raise TypeError, bad strings ValueError — both
caught by the record handler (none). -/
def pyIntJ : JVal → Option ℤ
  | .str s => pyIntOfString s
  | .num q => some (ratTrunc q)
  | .jbool b => some (if b then 1 else 0)
  | _ => none

/-- Python hashability: only immutable scalars can key the endpoint table;
a list or dict key raises TypeError (caught). -/
def jvalHashable : JVal → Bool
  | .arr _ => false
  | .obj _ => false
  | _ => true

/-- Python str(v) as used in the f-string fallback label.  Composite values
(whose Python repr uses brackets and braces) are abbreviated; no theorem in
this file depends on those cases. -/
def pyStrJ : JVal → String
  | .str s => s
  | .num q => toString q
  | .jbool b => if b then "True" else "False"
  | .null => "None"
  | .arr _ => "<list>"
  | .obj _ => "<dict>"

/-- Equality of endpoint-table keys.  Only hashable scalar values ever reach
the table (`jvalHashable` guards the insert), so comparison is defined on
scalars; Python's cross-type numeric key unification (1 == 1.0 == True) is
not modelled. -/
def labelBeq : JVal → JVal → Bool
  | .null, .null => true
  | .jbool a, .jbool b => a = b
  | .num a, .num b => a = b
  | .str a, .str b => a = b
  | _, _ => false

/-! ### Endpoint configuration (endpoints.json, typed per the repo schema) -/

/-- One entry of the configuration's endpoints array. -/
structure CEndpoint where
  name : String
  method : String
  url : String
  threshold_ms : Option ℚ
  description : Option String
deriving DecidableEq

/-- A routes configuration: `none` models a missing/empty config file (or one
without an `endpoints` key), for which `load_routes_config` falls back to `{}`. -/
def Config : Type := Option (List CEndpoint)

/-- The endpoints list of a configuration. -/
def configEndpoints : Config → List CEndpoint
  | none => []
  | some l => l

/-! ### get_endpoint_info_from_config and the endpoint resolution chain -/

/-- Errors during endpoint resolution: `caught` is a TypeError/ValueError that
the per-record handler swallows, `uncaught` (AttributeError) aborts analysis. -/
inductive ResErr where
  | caught : ResErr
  | uncaught : ResErr
deriving DecidableEq

/-- Python `clean in url` where `url` is an arbitrary tag value: substring
test on strings, membership on lists, key membership on dicts, TypeError
otherwise. -/
def pyInJ (clean : String) : JVal → Except ResErr Bool
  | .str u => .ok (pyInStr clean u)
  | .arr l => .ok (l.any fun v => match v with | .str s => s = clean | _ => false)
  | .obj o => .ok (o.any fun p => p.1 = clean)
  | _ => .error .caught

/-- Python `method.upper()` on a tag value: AttributeError (uncaught) unless
it is a string. -/
def pyUpperJ : JVal → Except ResErr String
  | .str s => .ok (pyUpper s)
  | _ => .error .uncaught

/-- get_endpoint_info_from_config(url, method, config): scans the configured
endpoints in declaration order; the first whose url (leading slashes
stripped) occurs in the point's url tag and whose method matches
case-insensitively yields (name, description or name).  The method is only
uppercased after the substring test succeeds (Python's `and` short-circuit). -/
def getEndpointInfo (url method : JVal) : List CEndpoint → Except ResErr (Option (String × String))
  | [] => .ok none
  | e :: rest =>
    match pyInJ (pyLstripSlash e.url) url with
    | .error er => .error er
    | .ok hit =>
      if hit then
        match pyUpperJ method with
        | .error er => .error er
        | .ok mu =>
          if pyUpper e.method = mu then
            .ok (some (e.name, e.description.getD e.name))
          else
            getEndpointInfo url method rest
      else
        getEndpointInfo url method rest

/-- get_endpoint_info_from_config including the empty-config guard. -/
def getEndpointInfoCfg (url method : JVal) (cfg : Config) : Except ResErr (Option (String × String)) :=
  match cfg with
  | none => .ok none
  | some eps => getEndpointInfo url method eps

/-- Python `url.split('/')[-1]` step of the fallback label (the
`if endpoint_parts` guard of the source is kept although split never
returns an empty list). -/
def lastUrlSegment (url : String) : String :=
  let parts := url.splitOn "/"
  match parts.getLast? with
  | some s => s
  | none => "unknown"

/-- The endpoint resolution chain of analyze_k6_json_with_timeline
(lines 129-142): route tag, then config lookup (whose result must be truthy
to be used, because of the walrus `elif`), then name tag, then
"{method} {last url segment}", then "unknown". -/
def resolveEndpoint (cfg : Config) (url method name_tag route_tag : JVal) : Except ResErr JVal :=
  if pyTruthy route_tag then
    .ok route_tag
  else
    match getEndpointInfoCfg url method cfg with
    | .error er => .error er
    | .ok (some (nm, _)) =>
      if nm ≠ "" then
        .ok (.str nm)
      else
        resolveTail url method name_tag
    | .ok none => resolveTail url method name_tag
where
  /-- The name-tag / url-parsing / unknown tail of the chain. -/
  resolveTail (url method name_tag : JVal) : Except ResErr JVal :=
    if pyTruthy name_tag then
      .ok name_tag
    else if pyTruthy url then
      match url with
      | .str u => .ok (.str (pyStrJ method ++ " " ++ lastUrlSegment u))
      | _ => .error .uncaught
    else
      .ok (.str "unknown")

/-! ### The analysis loop of analyze_k6_json_with_timeline -/

/-- One sample of the virtual-users timeline. -/
structure VusEntry where
  timestamp : JVal
  vus : JVal

/-- One entry of timeline_data: timestamp, response time and the raw tags. -/
structure TEntry where
  timestamp : JVal
  response_time : ℚ
  tags : JVal

/-- Per-endpoint accumulator of the defaultdict. -/
structure EpData where
  response_times : List ℚ
  timeline : List (JVal × ℚ)
  errors : ℕ
  count : ℕ

/-- The defaultdict factory value. -/
def epDefault : EpData := ⟨[], [], 0, 0⟩

/-- The mutable state of the analysis loop. -/
structure AnalyzeState where
  response_times : List ℚ
  timeline_data : List TEntry
  error_count : ℕ
  total_requests : ℕ
  endpoint_stats : List (JVal × EpData)
  vus_timeline : List VusEntry

/-- The state before any line is read. -/
def initState : AnalyzeState := ⟨[], [], 0, 0, [], []⟩

/-- defaultdict update: modify the entry at `k` (insertion order preserved),
materialising the default first when `k` is new. -/
def epUpd (k : JVal) (f : EpData → EpData) : List (JVal × EpData) → List (JVal × EpData)
  | [] => [(k, f epDefault)]
  | (k', v) :: rest => if labelBeq k' k then (k', f v) :: rest else (k', v) :: epUpd k f rest

/-- `data.get('type') == 'Point'`. -/
def typeIsPoint (o : List (String × JVal)) : Bool :=
  match jget o "type" with
  | some (.str t) => t = "Point"
  | _ => false

/-- `data.get('metric') == m`. -/
def metricIs (o : List (String × JVal)) (m : String) : Bool :=
  match jget o "metric" with
  | some (.str s) => s = m
  | _ => false

/-- The per-endpoint effect of one accepted duration point: the two appends
and the count increment (lines 144-149 of Generate_Report.py). -/
def durUpdateFn (q : ℚ) (ts : JVal) (d : EpData) : EpData :=
  { d with response_times := d.response_times ++ [q],
           timeline := d.timeline ++ [(ts, q)],
           count := d.count + 1 }

/-- Lines 144-149 applied to the state. -/
def durUpdate (st : AnalyzeState) (ep : JVal) (q : ℚ) (ts : JVal) : AnalyzeState :=
  { st with endpoint_stats := epUpd ep (durUpdateFn q ts) st.endpoint_stats }

/-- The per-endpoint error increment (line 153). -/
def bumpErrorsFn (d : EpData) : EpData :=
  { d with errors := d.errors + 1 }

/-- The two error increments (lines 151-153). -/
def bumpErrors (st : AnalyzeState) (ep : JVal) : AnalyzeState :=
  { st with error_count := st.error_count + 1,
            endpoint_stats := epUpd ep bumpErrorsFn st.endpoint_stats }

/-- Processing of one input line (lines 90-156).  `none` is a line json.loads
rejects.  `.error ()` is an exception the per-record handler does not catch
(KeyError from `data['data']`, AttributeError from `.get`/`.split` on a
non-dict/non-string): it aborts the whole analysis.  TypeError and
ValueError are caught by the handler; the state mutations made before the
raise survive. -/
def processLine (cfg : Config) (st : AnalyzeState) (line : Option JVal) : Except Unit AnalyzeState :=
  match line with
  | none => .ok st
  | some data =>
    match data with
    | .obj o =>
      if typeIsPoint o && metricIs o "vus" then
        match jget o "data" with
        | none => .error ()
        | some pd =>
          match pd with
          | .obj pdo =>
            let timestamp := jgetD pdo "time" (.str "")
            let vus_count := jgetD pdo "value" (.num 0)
            .ok { st with vus_timeline := st.vus_timeline ++ [⟨timestamp, vus_count⟩] }
          | _ => .error ()
      else if typeIsPoint o && metricIs o "http_req_duration" then
        match jget o "data" with
        | none => .error ()
        | some pd =>
          match pd with
          | .obj pdo =>
            let value := jgetD pdo "value" (.num 0)
            let timestamp := jgetD pdo "time" (.str "")
            match pyGtZero value with
            | .error _ => .ok st
            | .ok false => .ok st
            | .ok true =>
              let q := jvalAsRat value
              let tags := jgetD pdo "tags" (.obj [])
              let st1 := { st with
                response_times := st.response_times ++ [q],
                total_requests := st.total_requests + 1,
                timeline_data := st.timeline_data ++ [⟨timestamp, q, tags⟩] }
              match tags with
              | .obj tago =>
                let url := jgetD tago "url" (.str "")
                let status := jgetD tago "status" (.str "200")
                let method := jgetD tago "method" (.str "GET")
                let name_tag := jgetD tago "name" (.str "")
                let route_tag := jgetD tago "route" (.str "")
                match resolveEndpoint cfg url method name_tag route_tag with
                | .error .caught => .ok st1
                | .error .uncaught => .error ()
                | .ok ep =>
                  if jvalHashable ep then
                    let st2 := durUpdate st1 ep q timestamp
                    match pyIntJ status with
                    | none => .ok st2
                    | some z =>
                      if 400 ≤ z then .ok (bumpErrors st2 ep) else .ok st2
                  else
                    .ok st1
              | _ => .error ()
          | _ => .error ()
      else .ok st
    | _ => .ok st

/-- Fold of `processLine` over the input lines. -/
def analyzeFrom (cfg : Config) : List (Option JVal) → AnalyzeState → Except Unit AnalyzeState
  | [], st => .ok st
  | l :: rest, st =>
    match processLine cfg st l with
    | .error e => .error e
    | .ok st' => analyzeFrom cfg rest st'

/-- The whole reading loop, from the initial state. -/
def analyzeStream (cfg : Config) (lines : List (Option JVal)) : Except Unit AnalyzeState :=
  analyzeFrom cfg lines initState

/-! ### Descriptive statistics (statistics module as used by the script) -/

/-- Stable insertion into a sorted list. -/
def insertQ (x : ℚ) : List ℚ → List ℚ
  | [] => [x]
  | y :: ys => if x ≤ y then x :: y :: ys else y :: insertQ x ys

/-- Python sorted() on rationals. -/
def pySorted (l : List ℚ) : List ℚ := l.foldr insertQ []

/-- Python max() on a nonempty list (0 on the empty list, never hit: every
call site guards non-emptiness). -/
def pyMax : List ℚ → ℚ
  | [] => 0
  | x :: xs => xs.foldl max x

/-- Python min() with the same convention. -/
def pyMin : List ℚ → ℚ
  | [] => 0
  | x :: xs => xs.foldl min x

/-- statistics.mean. -/
def pyMean (l : List ℚ) : ℚ := l.sum / l.length

/-- statistics.median. -/
def pyMedian (l : List ℚ) : ℚ :=
  let s := pySorted l
  let n := s.length
  if n % 2 = 1 then s.getD (n / 2) 0
  else (s.getD (n / 2 - 1) 0 + s.getD (n / 2) 0) / 2

/-- statistics.quantiles(data, n), method 'exclusive', as implemented in
CPython: with data sorted and ld its length, for i in 1..n-1 compute
j = i*(ld+1) / n clamped into [1, ld-1], delta = i*(ld+1) - j*n, and emit
(data[j-1]*(n-delta) + data[j]*delta) / n.  Call sites only use it with
ld at least 20, far above the ld >= 2 the library demands. -/
def pyQuantiles (data : List ℚ) (n : ℕ) : List ℚ :=
  let s := pySorted data
  let ld := s.length
  (List.range (n - 1)).map fun i0 =>
    let i := i0 + 1
    let m := ld + 1
    let j0 := i * m / n
    let j := if j0 < 1 then 1 else if j0 > ld - 1 then ld - 1 else j0
    let delta : ℤ := (i * m : ℤ) - (j * n : ℤ)
    (s.getD (j - 1) 0 * ((n : ℚ) - (delta : ℚ)) + s.getD j 0 * (delta : ℚ)) / (n : ℚ)

/-- The p95 expression of the script (used for the global sample at line 177
and per endpoint at line 210): 20-quantile cut point 18 when at least 20
observations, max of the sample otherwise. -/
def p95OfSample (l : List ℚ) : ℚ :=
  if 20 ≤ l.length then (pyQuantiles l 20).getD 18 0 else pyMax l

/-- The p99 expression (line 178): 100-quantile cut point 98 when at least
100 observations, max otherwise. -/
def p99OfSample (l : List ℚ) : ℚ :=
  if 100 ≤ l.length then (pyQuantiles l 100).getD 98 0 else pyMax l

/-! ### Threshold table (lines 184-205) and the per-endpoint finalize pass -/

/-- Python dict assignment on a string-keyed dict: replace in place or append. -/
def dictSet (m : List (String × ℚ)) (k : String) (v : ℚ) : List (String × ℚ) :=
  match m with
  | [] => [(k, v)]
  | (k', v') :: rest => if k' = k then (k', v) :: rest else (k', v') :: dictSet rest k v

/-- Python dict lookup. -/
def dictGet (m : List (String × ℚ)) (k : String) : Option ℚ :=
  match m with
  | [] => none
  | (k', v) :: rest => if k' = k then some v else dictGet rest k

/-- The fallback defaults of lines 195-205: case-insensitive substring tests
on the endpoint name, in source order. -/
def derivedThreshold (name : String) : ℚ :=
  if pyInStr "dashboard" (pyLower name) then 1500
  else if pyInStr "student" (pyLower name) && pyInStr "list" (pyLower name) then 2500
  else if pyInStr "student" (pyLower name) && pyInStr "details" (pyLower name) then 1500
  else if pyInStr "course" (pyLower name) then 5000
  else derivedThresholdTail name
where
  /-- Remaining branches. -/
  derivedThresholdTail (_ : String) : ℚ := 2000

/-- The value stored per configured endpoint: the explicit threshold_ms when
truthy (`if threshold_ms:` — zero and missing both fall through), else the
derived default. -/
def endpointThresholdValue (e : CEndpoint) : ℚ :=
  match e.threshold_ms with
  | some t => if t ≠ 0 then t else derivedThreshold e.name
  | none => derivedThreshold e.name

/-- The thresholds dict built at lines 185-205 (keyed by configured name;
skipped entirely for a missing/empty config). -/
def thresholdsDict : Config → List (String × ℚ)
  | none => []
  | some eps => eps.foldl (fun m e => dictSet m e.name (endpointThresholdValue e)) []

/-- `endpoint in thresholds` / `thresholds[endpoint]` for a resolved label:
only string labels can equal a string key. -/
def thresholdForLabel (cfg : Config) (k : JVal) : Option ℚ :=
  match k with
  | .str s => dictGet (thresholdsDict cfg) s
  | _ => none

/-- Finalized per-endpoint record (the dict after lines 207-223). -/
structure EpFinal where
  label : JVal
  response_times : List ℚ
  errors : ℕ
  count : ℕ
  p95 : ℚ
  threshold : Option ℚ
  threshold_passed : Bool

/-- The per-endpoint pass of lines 207-223. -/
def finalizeEp (cfg : Config) (ent : JVal × EpData) : EpFinal :=
  let d := ent.2
  if !d.response_times.isEmpty then
    let p95 := p95OfSample d.response_times
    match thresholdForLabel cfg ent.1 with
    | some t =>
      ⟨ent.1, d.response_times, d.errors, d.count, p95, some t, decide (p95 ≤ t)⟩
    | none =>
      ⟨ent.1, d.response_times, d.errors, d.count, p95, none, true⟩
  else
    ⟨ent.1, d.response_times, d.errors, d.count, 0, none, true⟩

/-- The stats dict assembled at lines 169-182 plus the threshold pass. -/
structure Stats where
  total_requests : ℕ
  error_count : ℕ
  error_rate : ℚ
  avg_response_time : ℚ
  min_response_time : ℚ
  max_response_time : ℚ
  p50_response_time : ℚ
  p95_response_time : ℚ
  p99_response_time : ℚ
  endpoint_stats : List EpFinal
  timeline_data : List TEntry
  vus_timeline : List VusEntry

/-- Lines 164-225: `None` when no response time survived, otherwise the
aggregate statistics and the finalized endpoint table. -/
def finalize (cfg : Config) (st : AnalyzeState) : Option Stats :=
  if st.response_times.isEmpty then none
  else some
    { total_requests := st.total_requests
      error_count := st.error_count
      error_rate := if 0 < st.total_requests then (st.error_count : ℚ) / (st.total_requests : ℚ) * 100 else 0
      avg_response_time := pyMean st.response_times
      min_response_time := pyMin st.response_times
      max_response_time := pyMax st.response_times
      p50_response_time := pyMedian st.response_times
      p95_response_time := p95OfSample st.response_times
      p99_response_time := p99OfSample st.response_times
      endpoint_stats := st.endpoint_stats.map (finalizeEp cfg)
      timeline_data := st.timeline_data
      vus_timeline := st.vus_timeline }

/-- analyze_k6_json_with_timeline end to end on a decoded line stream:
uncaught error, or `none` (no data), or the stats. -/
def analyzeAndFinalize (cfg : Config) (lines : List (Option JVal)) : Except Unit (Option Stats) :=
  match analyzeStream cfg lines with
  | .error e => .error e
  | .ok st => .ok (finalize cfg st)

/-! ### Status classification of the endpoint table (lines 425-447) -/

/-- The three status labels of the report table (rendered there as
"Excellent" / "Good" / "Needs Attention" with decorations). -/
inductive EpStatus where
  | excellent : EpStatus
  | good : EpStatus
  | needsAttention : EpStatus
deriving DecidableEq

/-- success_rate of line 427. -/
def successRate (count errors : ℕ) : ℚ :=
  ((count : ℚ) - (errors : ℚ)) / (count : ℚ) * 100

/-- The if/elif/else of lines 436-444. -/
def classifyStatus (success_rate : ℚ) (threshold_passed : Bool) : EpStatus :=
  if 95 ≤ success_rate && threshold_passed then .excellent
  else if 90 ≤ success_rate && threshold_passed then .good
  else .needsAttention

/-! ### Windowed error rate of generate_html_report_with_charts (246-266) -/

/-- `d.get('tags', {}).get('status', '200')`: AttributeError (abort of report
generation) when the stored tags value is not a dict. -/
def entryStatus (e : TEntry) : Except Unit JVal :=
  match e.tags with
  | .obj o => .ok (jgetD o "status" (.str "200"))
  | _ => .error ()

/-- `status.startswith(('4', '5'))`; AttributeError on a non-string status. -/
def statusStarts45 : JVal → Except Unit Bool
  | .str s =>
    .ok (match s.data with
         | '4' :: _ => true
         | '5' :: _ => true
         | _ => false)
  | _ => .error ()

/-- Is this timeline entry counted as an error by the report loop? -/
def entryIsError (e : TEntry) : Except Unit Bool :=
  match entryStatus e with
  | .error u => .error u
  | .ok s => statusStarts45 s

/-- Error count over a list of entries (sum of the generator at line 264);
any entry with unusable tags aborts. -/
def countErrors : List TEntry → Except Unit ℕ
  | [] => .ok 0
  | e :: rest =>
    match entryIsError e with
    | .error u => .error u
    | .ok b =>
      match countErrors rest with
      | .error u => .error u
      | .ok n => .ok (if b then n + 1 else n)

/-- The slice `sorted_timeline[max(0, i-25) : min(len, i+25)]` (window_size
50, halved on each side of i; note it contains index i itself). -/
def windowSlice (tl : List TEntry) (i : ℕ) : List TEntry :=
  let start := i - 25
  let stop := min tl.length (i + 25)
  (tl.take stop).drop start

/-- The error-rate value pushed for sampled index i: percentage of error
entries in the window, 0 for an empty window, rounded to 2 decimals. -/
def windowErrorRate (tl : List TEntry) (i : ℕ) : Except Unit ℚ :=
  let w := windowSlice tl i
  match countErrors w with
  | .error u => .error u
  | .ok errs =>
    .ok (round2 (if 0 < w.length then (errs : ℚ) / (w.length : ℚ) * 100 else 0))

/-- The loop of lines 252-266 restricted to the error_rates series: every
5th index (i % 5 == 0) of the timestamp-sorted timeline emits one value.
(The timestamp labels and response-time series of the same loop involve
datetime formatting and are not needed by any claim.) -/
def errorRatesAux (full : List TEntry) : ℕ → List TEntry → Except Unit (List ℚ)
  | _, [] => .ok []
  | i, _ :: rest =>
    if i % 5 = 0 then
      match windowErrorRate full i with
      | .error u => .error u
      | .ok r =>
        match errorRatesAux full (i + 1) rest with
        | .error u => .error u
        | .ok rs => .ok (r :: rs)
    else
      errorRatesAux full (i + 1) rest

/-- The full error_rates series over a sorted timeline. -/
def errorRatesOf (tl : List TEntry) : Except Unit (List ℚ) :=
  errorRatesAux tl 0 tl

/-! ### Live status tracker of run_k6_test (app.py lines 176-243) -/

/-- Natural number denoted by a run of ASCII digits (Python int on a regex
group). -/
def natOfDigits (l : List Char) : ℕ := digitsToNat l

/-- Greedy match of the tail `(\d+)/(\d+)\s+VUs` at the current position.
The digit and whitespace runs are maximal: with this pattern, regex
backtracking can never shorten them (the following literal is never a
digit or a space), so greedy maximal runs are exact. -/
def vusPairAt (l : List Char) : Option (ℕ × ℕ) :=
  let (d1, r1) := l.span Char.isDigit
  match d1, r1 with
  | _ :: _, '/' :: r2 =>
    let (d2, r3) := r2.span Char.isDigit
    match d2 with
    | _ :: _ =>
      let (ws, r4) := r3.span isPySpace
      match ws with
      | _ :: _ => if listStarts "VUs".data r4 then some (natOfDigits d1, natOfDigits d2) else none
      | [] => none
    | [] => none
  | _, _ => none

/-- re.search of `(\d+)/(\d+)\s+VUs` (leftmost match). -/
def vusPairSearch : List Char → Option (ℕ × ℕ)
  | [] => none
  | c :: cs =>
    match vusPairAt (c :: cs) with
    | some p => some p
    | none => vusPairSearch cs

/-- Greedy match of `(\d+)\s+VUs` at the current position. -/
def simpleVusAt (l : List Char) : Option ℕ :=
  let (d1, r1) := l.span Char.isDigit
  match d1 with
  | _ :: _ =>
    let (ws, r2) := r1.span isPySpace
    match ws with
    | _ :: _ => if listStarts "VUs".data r2 then some (natOfDigits d1) else none
    | [] => none
  | [] => none

/-- re.search of `(\d+)\s+VUs`. -/
def simpleVusSearch : List Char → Option ℕ
  | [] => none
  | c :: cs =>
    match simpleVusAt (c :: cs) with
    | some n => some n
    | none => simpleVusSearch cs

/-- Greedy match of `(\d+)%` at the current position. -/
def progressAt (l : List Char) : Option ℕ :=
  let (d1, r1) := l.span Char.isDigit
  match d1, r1 with
  | _ :: _, '%' :: _ => some (natOfDigits d1)
  | _, _ => none

/-- re.search of `(\d+)%`. -/
def progressSearch : List Char → Option ℕ
  | [] => none
  | c :: cs =>
    match progressAt (c :: cs) with
    | some n => some n
    | none => progressSearch cs

/-- Greedy match of `running\s+\(([^)]+)\)` at the current position; the
group is everything between the parentheses (at least one character,
none of them a closing parenthesis). -/
def runningAt (l : List Char) : Option String :=
  if listStarts "running".data l then
    let r1 := l.drop 7
    let (ws, r2) := r1.span isPySpace
    match ws, r2 with
    | _ :: _, '(' :: r3 =>
      let (g, r4) := r3.span (fun c => c ≠ ')')
      match g, r4 with
      | _ :: _, ')' :: _ => some (String.mk g)
      | _, _ => none
    | _, _ => none
  else none

/-- re.search of `running\s+\(([^)]+)\)`. -/
def runningSearch : List Char → Option String
  | [] => none
  | c :: cs =>
    match runningAt (c :: cs) with
    | some s => some s
    | none => runningSearch cs

/-- total_stages of app.py line 193: `len(custom_stages) if custom_stages
else 5`.  A custom stage is (duration, target); only the count matters. -/
def totalStagesOf (custom_stages : Option (List (String × ℤ))) : ℕ :=
  match custom_stages with
  | some l => if l.isEmpty then 5 else l.length
  | none => 5

/-- The tracker's run state: the loop's local variables together with the
fields it writes into the run's test_status entry (absent until first
written). -/
structure TrackerState where
  current_stage : ℕ
  current_vus : ℕ
  target_vus : ℕ
  progress_percent : ℕ
  vusField : Option ℕ
  targetVusField : Option ℕ
  progressField : Option ℕ
  runningTimeField : Option String
  currentStageField : Option ℕ
  totalStagesField : Option ℕ
  stageMsg : String
deriving DecidableEq

/-- Locals at loop entry (lines 194-197); the stage message last written
before the loop is "Running K6 load test" (line 166). -/
def trackerInit : TrackerState :=
  ⟨1, 0, 0, 0, none, none, none, none, none, none, "Running K6 load test"⟩

/-- Lines 206-219: the current/target VU pattern, with the simple VU pattern
as fallback (the source's redundant re-search and `not vus_match` guard
collapse to this in the branch where the first search failed). -/
def vusPhase (st : TrackerState) (l : List Char) : TrackerState :=
  match vusPairSearch l with
  | some (a, b) =>
    { st with current_vus := a, target_vus := b, vusField := some a, targetVusField := some b }
  | none =>
    if (simpleVusSearch l).isSome && listHasSub "VUs".data l then
      match simpleVusSearch l with
      | some n => { st with current_vus := n, vusField := some n }
      | none => st
    else st

/-- Lines 221-225: the progress percentage. -/
def progressPhase (st : TrackerState) (l : List Char) : TrackerState :=
  match progressSearch l with
  | some p => { st with progress_percent := p, progressField := some p }
  | none => st

/-- Lines 227-232: the running-time pattern. -/
def runningPhase (st : TrackerState) (l : List Char) : TrackerState :=
  match runningSearch l with
  | some rt => { st with runningTimeField := some rt, stageMsg := "Running for " ++ rt }
  | none => st

/-- Lines 234-243: the stage-transition substring tests, applied to the
stripped, lowercased line. -/
def stagePhase (total_stages : ℕ) (st : TrackerState) (low : List Char) : TrackerState :=
  if listHasSub "ramping up".data low then
    let ns := st.current_stage + 1
    { st with current_stage := ns, currentStageField := some ns,
              totalStagesField := some total_stages,
              stageMsg := "Stage " ++ toString ns ++ "/" ++ toString total_stages ++ ": Ramping up" }
  else if listHasSub "ramping down".data low then
    { st with stageMsg := "Stage " ++ toString st.current_stage ++ "/" ++ toString total_stages ++ ": Ramping down" }
  else if listHasSub "staying at".data low then
    { st with stageMsg := "Stage " ++ toString st.current_stage ++ "/" ++ toString total_stages ++ ": Steady state" }
  else st

/-- Processing of one k6 output line (lines 202-243), in source order: the
two VU patterns (the second only when the first found nothing), the
progress percentage, the running-time pattern, then the stage-transition
substring tests on the stripped, lowercased line. -/
def trackLine (total_stages : ℕ) (st : TrackerState) (line : String) : TrackerState :=
  let l := line.data
  let low := (pyStrip line).data.map Char.toLower
  stagePhase total_stages (runningPhase (progressPhase (vusPhase st l) l) l) low

/-- The whole output-scraping loop. -/
def trackLines (total_stages : ℕ) : TrackerState → List String → TrackerState
  | st, [] => st
  | st, line :: rest => trackLines total_stages (trackLine total_stages st line) rest

/-! ### Order of test_status writes in run_k6_test (app.py lines 103-332) -/

/-- The sequence of (field, value) writes run_k6_test makes to the run's
test_status entry on the success path (exit code 0) when the k6 process
emits no parseable output lines, in program order: lines 107, 108, 166,
261, 263, 323, 324, 325, 326. -/
def k6SuccessWrites (reportName summaryName detailedName : String) : List (String × JVal) :=
  [ ("status", .str "running")
  , ("stage", .str "Preparing test environment")
  , ("stage", .str "Running K6 load test")
  , ("thresholds_crossed", .jbool false)
  , ("stage", .str "Generating HTML report")
  , ("status", .str "completed")
  , ("report_file", .str reportName)
  , ("summary_file", .str summaryName)
  , ("detailed_file", .str detailedName) ]

/-- The test_status entry created at submission (app.py lines 848-854,
custom_stages and metadata fields elided). -/
def statusInit : List (String × JVal) :=
  [("status", .str "queued"), ("stage", .str "Initializing")]

/-- The snapshot a status poller sees after the first `k` writes have
landed. -/
def observeAfter (writes : List (String × JVal)) (k : ℕ) : List (String × JVal) :=
  (writes.take k).foldl (fun m p => m ++ [p]) statusInit

/-- Field lookup in a snapshot (last write wins, as in a dict). -/
def snapGet (m : List (String × JVal)) (k : String) : Option JVal :=
  jget m k

/-! ### Aggregate sums over the endpoint table -/

/-- Sum of the per-endpoint request counts. -/
def sumCounts (m : List (JVal × EpData)) : ℕ := (m.map (fun p => p.2.count)).sum

/-- Sum of the per-endpoint error counts. -/
def sumErrors (m : List (JVal × EpData)) : ℕ := (m.map (fun p => p.2.errors)).sum

/-! ### Spec-side renderings of claims, for comparison with the code -/

/-- The first configured endpoint matching a url/method pair (rule 2 of the
resolution chain, shared by the spec-side renderings below). -/
def firstConfigMatch (eps : List CEndpoint) (url method : String) : Option CEndpoint :=
  eps.find? fun e => pyInStr (pyLstripSlash e.url) url && pyUpper e.method = pyUpper method

/-- Rules 3-5 of the resolution chain over string tags (absent tags are the
empty string, as the code's .get defaults make them). -/
def resolveTail3 (url name method : String) : String :=
  if name ≠ "" then name
  else if url ≠ "" then method ++ " " ++ lastUrlSegment url
  else "unknown"

/-- Claim C2 exactly as stated: rule 2 returns the configured name of the
first matching endpoint whenever one matches, whatever that name is. -/
def resolveClaimC2 (cfg : Config) (route url name method : String) : String :=
  if route ≠ "" then route
  else
    match firstConfigMatch (configEndpoints cfg) url method with
    | some e => e.name
    | none => resolveTail3 url name method

/-- Claim C2 amended: rule 2 only applies when the matched endpoint's
configured name is non-empty; otherwise resolution falls through to the
name tag and the later fallbacks. -/
def resolveAmendedC2 (cfg : Config) (route url name method : String) : String :=
  if route ≠ "" then route
  else
    match firstConfigMatch (configEndpoints cfg) url method with
    | some e => if e.name ≠ "" then e.name else resolveTail3 url name method
    | none => resolveTail3 url name method

/-- Claim C5 exactly as stated: the explicit numeric threshold_ms is used
whenever it is present. -/
def thresholdClaimC5 (e : CEndpoint) : ℚ :=
  match e.threshold_ms with
  | some t => t
  | none => derivedThreshold e.name

/-- Claim C9's error criterion exactly as stated: the status tag, read as a
number the way the aggregate loop reads it, is at least 400. -/
def entryClaimError (e : TEntry) : Bool :=
  match e.tags with
  | .obj o =>
    match pyIntJ (jgetD o "status" (.str "200")) with
    | some z => decide (400 ≤ z)
    | none => false
  | _ => false

/-- Claim C9's per-sample value exactly as stated: errors-in-window over
points-in-window times 100, no rounding. -/
def claimRatesC9 (tl : List TEntry) : List ℚ :=
  ((List.range tl.length).filter (fun i => i % 5 = 0)).map fun i =>
    let w := windowSlice tl i
    ((w.countP entryClaimError : ℕ) : ℚ) / (w.length : ℚ) * 100

/-- The report loop's error criterion as a pure predicate (meaningful when
the loop completes, i.e. every status in the window is a string). -/
def entryIsErrorPure (e : TEntry) : Bool :=
  match entryIsError e with
  | .ok b => b
  | .error _ => false

/-- The emitted per-sample value when the loop completes: window error
percentage rounded to two decimals. -/
def pureRate (tl : List TEntry) (i : ℕ) : ℚ :=
  let w := windowSlice tl i
  round2 (if 0 < w.length then ((w.countP entryIsErrorPure : ℕ) : ℚ) / (w.length : ℚ) * 100 else 0)

/-- Claim C8's benign class: lines json.loads rejects, decoded non-dicts,
dicts without either recognized discriminator, and duration records whose
data mapping is present but whose value does not compare greater than
zero.  (Recognized records with a missing or non-dict data field are NOT
benign: they abort; vus records with a data mapping always append.) -/
def benignLine (line : Option JVal) : Bool :=
  match line with
  | none => true
  | some (.obj o) =>
    if typeIsPoint o && metricIs o "vus" then false
    else if typeIsPoint o && metricIs o "http_req_duration" then
      match jget o "data" with
      | some (.obj pdo) =>
        match pyGtZero (jgetD pdo "value" (.num 0)) with
        | .ok true => false
        | _ => true
      | _ => false
    else true
  | some _ => true

/-! ### Concrete inputs used by the claim theorems -/

/-- A decoded http_req_duration line with the given time, value and tags. -/
def durLine (t : String) (v : JVal) (tags : List (String × JVal)) : Option JVal :=
  some (.obj [("type", .str "Point"), ("metric", .str "http_req_duration"),
              ("data", .obj [("time", .str t), ("value", v), ("tags", .obj tags)])])

/-- A decoded vus gauge line. -/
def vusLine (t : String) (v : JVal) : Option JVal :=
  some (.obj [("type", .str "Point"), ("metric", .str "vus"),
              ("data", .obj [("time", .str t), ("value", v)])])

/-- Scenario A of the spec: five requests on one endpoint "X" (via the route
tag), the 5000 ms one failing with status 500, no configuration. -/
def scenarioALines : List (Option JVal) :=
  [ durLine "2024-01-01T00:00:00Z" (.num 100) [("route", .str "X")]
  , durLine "2024-01-01T00:00:01Z" (.num 120) [("route", .str "X")]
  , durLine "2024-01-01T00:00:02Z" (.num 110) [("route", .str "X")]
  , durLine "2024-01-01T00:00:03Z" (.num 5000) [("route", .str "X"), ("status", .str "500")]
  , durLine "2024-01-01T00:00:04Z" (.num 130) [("route", .str "X")] ]

/-- The stats Scenario A produces (no config file). -/
def scenarioAStats : Option Stats :=
  match analyzeAndFinalize none scenarioALines with
  | .ok s => s
  | .error _ => none

/-- A configuration whose only (first) matching endpoint has an empty
configured name. -/
def cfgC2 : Config := some [⟨"", "GET", "/x", none, none⟩]

/-- A one-endpoint configuration used against claim C3. -/
def cfgC3 : Config := some [⟨"A", "GET", "/a", none, none⟩]

/-- A duration line whose url tag is a number: endpoint resolution raises a
TypeError inside the config scan (caught) after the global counters were
already bumped. -/
def c3BadLine : Option JVal := durLine "t" (.num 10) [("url", .num 5)]

/-- A recognized vus record with no data field: `data['data']` raises an
uncaught KeyError. -/
def c8BadLine : Option JVal := some (.obj [("type", .str "Point"), ("metric", .str "vus")])

/-- A well-formed duration line (route-tagged, positive value). -/
def goodDurLine : Option JVal := durLine "t" (.num 10) [("route", .str "X")]

/-- The state after analyzing the single well-formed line above. -/
def c3WitnessState : AnalyzeState :=
  match analyzeStream none [goodDurLine] with
  | .ok st => st
  | .error _ => initState

/-- A timeline entry with the given status tag string. -/
def entryWithStatus (s : String) : TEntry := ⟨.str "t", 10, .obj [("status", .str s)]⟩

/-- One timeline point with HTTP status 600: at least 400, but not counted
by the startswith('4','5') test of the report loop. -/
def c9Entry : TEntry := entryWithStatus "600"

/-- Six sorted timeline points, half of them server errors: sampled indices
0 and 5, both windows covering all six points. -/
def c9WitnessTl : List TEntry :=
  [ entryWithStatus "200", entryWithStatus "500", entryWithStatus "200"
  , entryWithStatus "500", entryWithStatus "200", entryWithStatus "500" ]

/-! ### Helper lemmas on the threshold dict -/

theorem dictGet_dictSet_self (m : List (String × ℚ)) (k : String) (v : ℚ) :
    dictGet (dictSet m k v) k = some v := by
  induction m with
  | nil => simp [dictSet, dictGet]
  | cons p rest ih =>
    obtain ⟨k', v'⟩ := p
    by_cases h : k' = k
    · subst h; simp [dictSet, dictGet]
    · simp [dictSet, dictGet, h, ih]

theorem dictGet_dictSet_ne (m : List (String × ℚ)) (k k' : String) (v : ℚ) (h : k' ≠ k) :
    dictGet (dictSet m k' v) k = dictGet m k := by
  induction m with
  | nil => simp [dictSet, dictGet, h]
  | cons p rest ih =>
    obtain ⟨k0, v0⟩ := p
    by_cases h0 : k0 = k'
    · subst h0
      simp [dictSet, dictGet, h]
    · by_cases h1 : k0 = k <;> simp [dictSet, dictGet, h0, h1, ih, Ne.symm h]

theorem thresholds_fold_ne (eps : List CEndpoint) (s : String) (h : ∀ e ∈ eps, e.name ≠ s) :
    ∀ acc, dictGet (eps.foldl (fun m e => dictSet m e.name (endpointThresholdValue e)) acc) s = dictGet acc s := by
  induction eps with
  | nil => exact fun acc => rfl
  | cons e rest ih =>
    intro acc
    simp only [List.foldl_cons]
    rw [ih (fun e' he' => h e' (List.mem_cons_of_mem e he')),
        dictGet_dictSet_ne _ _ _ _ (h e (List.mem_cons_self e rest))]

theorem thresholdsDict_last_name (l1 l2 : List CEndpoint) (e : CEndpoint)
    (h : ∀ e' ∈ l2, e'.name ≠ e.name) :
    dictGet (thresholdsDict (some (l1 ++ e :: l2))) e.name = some (endpointThresholdValue e) := by
  simp only [thresholdsDict]
  rw [List.foldl_append, List.foldl_cons, thresholds_fold_ne l2 e.name h, dictGet_dictSet_self]

theorem thresholdsDict_not_configured (eps : List CEndpoint) (s : String)
    (h : ∀ e ∈ eps, e.name ≠ s) :
    dictGet (thresholdsDict (some eps)) s = none := by
  simp only [thresholdsDict]
  rw [thresholds_fold_ne eps s h]
  rfl

/-- Claim C1: for every non-empty duration sample, the reported p95 equals
max(sample) below 20 observations and the value at index 18 of
statistics.quantiles(sample, 20) from 20 on; the reported p99 equals
max(sample) below 100 observations and the value at index 98 of
statistics.quantiles(sample, 100) from 100 on.  `p95OfSample` /
`p99OfSample` are the exact expressions the analyzer uses, globally and
per endpoint. -/
theorem c1_percentile_fallback (s : List ℚ) (h : s ≠ []) :
    (s.length < 20 → p95OfSample s = pyMax s) ∧
    (20 ≤ s.length → p95OfSample s = (pyQuantiles s 20).getD 18 0) ∧
    (s.length < 100 → p99OfSample s = pyMax s) ∧
    (100 ≤ s.length → p99OfSample s = (pyQuantiles s 100).getD 98 0) := by
  refine ⟨fun hl => ?_, fun hl => ?_, fun hl => ?_, fun hl => ?_⟩
  · simp [p95OfSample, Nat.not_le.mpr hl]
  · simp [p95OfSample, hl]
  · simp [p99OfSample, Nat.not_le.mpr hl]
  · simp [p99OfSample, hl]

/-- Witness for C1 at the one-element sample [3]. -/
theorem c1_percentile_fallback_witness :
    ([(3:ℚ)] ≠ []) ∧ p95OfSample [(3:ℚ)] = pyMax [(3:ℚ)] ∧ p99OfSample [(3:ℚ)] = pyMax [(3:ℚ)] := by
  refine ⟨by decide, ?_, ?_⟩
  · exact (c1_percentile_fallback [(3:ℚ)] (by decide)).1 (by decide)
  · exact (c1_percentile_fallback [(3:ℚ)] (by decide)).2.2.1 (by decide)

/-- Counterexample to C5 as stated: an endpoint configured with the explicit
numeric threshold_ms 0 does not get threshold 0 — the `if threshold_ms:`
truthiness test drops it and the derived default (2000 for a name matching
no keyword) is stored instead. -/
theorem c5_threshold_counterexample :
    dictGet (thresholdsDict (some [⟨"Alpha", "GET", "/a", some 0, none⟩])) "Alpha" = some 2000 ∧
    thresholdClaimC5 ⟨"Alpha", "GET", "/a", some 0, none⟩ = 0 ∧
    (2000 : ℚ) ≠ 0 := by
  refine ⟨by decide, by decide, by norm_num⟩

/-- Claim C5 (amended): the threshold compared against p95 is the explicit
numeric threshold_ms when present AND non-zero (Python truthiness),
otherwise the derived default by case-insensitive substring priority
dashboard 1500 / student+list 2500 / student+details 1500 / course 5000 /
else 2000; thresholdPassed holds exactly when p95 is at most the
threshold; an endpoint named "Student List API" without an explicit
threshold derives 2500.  (For duplicate configured names the dict keeps
the last occurrence, hence the last-occurrence premise.) -/
theorem c5_threshold_amended :
    (∀ (l1 l2 : List CEndpoint) (e : CEndpoint), (∀ e' ∈ l2, e'.name ≠ e.name) →
      dictGet (thresholdsDict (some (l1 ++ e :: l2))) e.name =
        some (match e.threshold_ms with
              | some t => if t ≠ 0 then t else derivedThreshold e.name
              | none => derivedThreshold e.name)) ∧
    (∀ nm : String,
      derivedThreshold nm =
        if pyInStr "dashboard" (pyLower nm) then 1500
        else if pyInStr "student" (pyLower nm) && pyInStr "list" (pyLower nm) then 2500
        else if pyInStr "student" (pyLower nm) && pyInStr "details" (pyLower nm) then 1500
        else if pyInStr "course" (pyLower nm) then 5000
        else 2000) ∧
    (∀ (cfg : Config) (k : JVal) (d : EpData) (t : ℚ),
      thresholdForLabel cfg k = some t → d.response_times ≠ [] →
      (finalizeEp cfg (k, d)).threshold = some t ∧
      ((finalizeEp cfg (k, d)).threshold_passed = true ↔ p95OfSample d.response_times ≤ t)) ∧
    dictGet (thresholdsDict (some [⟨"Student List API", "GET", "/students", none, none⟩]))
      "Student List API" = some 2500 := by
  refine ⟨?_, ?_, ?_, by decide⟩
  · intro l1 l2 e h
    exact thresholdsDict_last_name l1 l2 e h
  · intro nm
    rfl
  · intro cfg k d t ht hne
    have hemp : d.response_times.isEmpty = false := by
      simpa [List.isEmpty_iff] using hne
    simp [finalizeEp, hemp, ht]

/-- Witness for C5 amended: a single endpoint with explicit threshold 300. -/
theorem c5_threshold_amended_witness :
    (∀ e' ∈ ([] : List CEndpoint), e'.name ≠ "Alpha") ∧
    dictGet (thresholdsDict (some ([] ++ (⟨"Alpha", "GET", "/a", some 300, none⟩ : CEndpoint) :: []))) "Alpha" = some 300 := by
  refine ⟨by simp, ?_⟩
  have h := c5_threshold_amended.1 [] [] ⟨"Alpha", "GET", "/a", some 300, none⟩ (by simp)
  simpa using h

/-- Claim C10: a resolved label that equals no configured endpoint name gets
no threshold at all (reported N/A) and a true threshold-passed flag, so
with success rate at least 95 it is classified excellent whatever its
p95. -/
theorem c10_unconfigured_label (cfg : Config) (k : JVal) (d : EpData)
    (h : ∀ e ∈ configEndpoints cfg, JVal.str e.name ≠ k) :
    (finalizeEp cfg (k, d)).threshold = none ∧
    (finalizeEp cfg (k, d)).threshold_passed = true ∧
    (95 ≤ successRate d.count d.errors →
      classifyStatus (successRate d.count d.errors) (finalizeEp cfg (k, d)).threshold_passed = .excellent) := by
  have hnone : thresholdForLabel cfg k = none := by
    match k with
    | .null | .jbool _ | .num _ | .arr _ | .obj _ => rfl
    | .str s =>
      match cfg with
      | none => rfl
      | some eps =>
        have hn : ∀ e ∈ eps, e.name ≠ s := by
          intro e he heq
          exact h e he (by rw [heq])
        exact thresholdsDict_not_configured eps s hn
  have hth : (finalizeEp cfg (k, d)).threshold = none ∧ (finalizeEp cfg (k, d)).threshold_passed = true := by
    by_cases hemp : d.response_times.isEmpty <;> simp [finalizeEp, hemp, hnone]
  refine ⟨hth.1, hth.2, fun h95 => ?_⟩
  rw [hth.2]
  simp [classifyStatus, h95]

/-- Witness for C10: label "Zed", config naming only "A", one request with
p95 9999 and no errors. -/
theorem c10_unconfigured_label_witness :
    (∀ e ∈ configEndpoints cfgC3, JVal.str e.name ≠ JVal.str "Zed") ∧
    (finalizeEp cfgC3 (.str "Zed", ⟨[9999], [], 0, 1⟩)).threshold = none ∧
    (finalizeEp cfgC3 (.str "Zed", ⟨[9999], [], 0, 1⟩)).threshold_passed = true ∧
    classifyStatus (successRate 1 0) (finalizeEp cfgC3 (.str "Zed", ⟨[9999], [], 0, 1⟩)).threshold_passed = .excellent := by
  have hne : ∀ e ∈ configEndpoints cfgC3, JVal.str e.name ≠ JVal.str "Zed" := by
    intro e he
    simp [cfgC3, configEndpoints] at he
    subst he
    intro hc
    injection hc with hs
    exact absurd hs (by decide)
  have h := c10_unconfigured_label cfgC3 (.str "Zed") ⟨[9999], [], 0, 1⟩ hne
  refine ⟨hne, h.1, h.2.1, h.2.2 (by norm_num [successRate])⟩

/-- Claim C7 evaluated at its failing point: on the success path of
run_k6_test the write "status = completed" (app.py line 323) lands before
the write of report_file (line 324), so the snapshot after the sixth
post-submission write shows status completed with no report_file; only
the next write adds it.  The rate-control runner is worse still: it sets
status completed (line 484) before report generation even starts. -/
theorem c7_completed_before_report_file :
    snapGet (observeAfter (k6SuccessWrites "report.html" "s_summary.json" "s_detailed.json") 6) "status"
      = some (.str "completed") ∧
    snapGet (observeAfter (k6SuccessWrites "report.html" "s_summary.json" "s_detailed.json") 6) "report_file"
      = none ∧
    snapGet (observeAfter (k6SuccessWrites "report.html" "s_summary.json" "s_detailed.json") 7) "report_file"
      = some (.str "report.html") := ⟨rfl, rfl, rfl⟩

/-- Claim C4: the status label is excellent iff successRate at least 95 with
the threshold passed, good iff successRate in [90, 95) with the threshold
passed, needs-attention otherwise; and Scenario A — durations
[100, 120, 110, 5000 (status 500), 130] on route-tagged endpoint "X" with
no configuration — yields totals (5, 1), error_rate 20, endpoint count 5
with 1 error, p95 5000, no threshold, threshold_passed true, successRate
80 and classification needs-attention. -/
theorem c4_status_classification :
    (∀ (count errors : ℕ) (tp : Bool), 0 < count →
      ((classifyStatus (successRate count errors) tp = .excellent ↔
          (95 ≤ successRate count errors ∧ tp = true)) ∧
       (classifyStatus (successRate count errors) tp = .good ↔
          (90 ≤ successRate count errors ∧ successRate count errors < 95 ∧ tp = true)) ∧
       (classifyStatus (successRate count errors) tp = .needsAttention ↔
          ¬(90 ≤ successRate count errors ∧ tp = true)))) ∧
    (scenarioAStats.map fun s => (s.total_requests, s.error_count)) = some (5, 1) ∧
    (scenarioAStats.map fun s => s.error_rate) = some 20 ∧
    (scenarioAStats.map fun s => s.endpoint_stats.map fun e => (e.count, e.errors)) = some [(5, 1)] ∧
    (scenarioAStats.map fun s => s.endpoint_stats.map fun e => e.p95) = some [5000] ∧
    (scenarioAStats.map fun s => s.endpoint_stats.map fun e => e.threshold) = some [none] ∧
    (scenarioAStats.map fun s => s.endpoint_stats.map fun e => e.threshold_passed) = some [true] ∧
    successRate 5 1 = 80 ∧
    classifyStatus (successRate 5 1) true = .needsAttention := by
  refine ⟨?_, by decide, ?_, by decide, by decide, by decide, by decide, by norm_num [successRate], ?_⟩
  · intro count errors tp hc
    refine ⟨?_, ?_, ?_⟩ <;>
      cases tp <;>
      by_cases h95 : (95:ℚ) ≤ successRate count errors <;>
      by_cases h90 : (90:ℚ) ≤ successRate count errors <;>
      simp [classifyStatus, h95, h90, not_le] <;>
      linarith
  · simp [scenarioAStats, analyzeAndFinalize, analyzeStream, analyzeFrom, processLine,
          typeIsPoint, metricIs, jget, jgetD, pyGtZero, jvalAsRat, resolveEndpoint,
          pyTruthy, jvalHashable, durUpdate, bumpErrors, epUpd, labelBeq, pyIntJ,
          pyIntOfString, pyStripChars, isPySpace, digitsToNat, finalize, scenarioALines,
          durLine, initState, epDefault]
    norm_num
  · norm_num [classifyStatus, successRate]

/-- Witness for C4 at count 5, errors 1, threshold passed. -/
theorem c4_status_classification_witness :
    (0 < 5) ∧
    (classifyStatus (successRate 5 1) true = .excellent ↔ (95 ≤ successRate 5 1 ∧ true = true)) :=
  ⟨by decide, (c4_status_classification.1 5 1 true (by decide)).1⟩

/-- The config scan agrees with a first-match find over the endpoints when
the point's url and method tags are strings. -/
theorem getEndpointInfo_str (url method : String) (eps : List CEndpoint) :
    getEndpointInfo (.str url) (.str method) eps =
      .ok ((firstConfigMatch eps url method).map fun e => (e.name, e.description.getD e.name)) := by
  induction eps with
  | nil => rfl
  | cons e rest ih =>
    by_cases h1 : pyInStr (pyLstripSlash e.url) url
    · by_cases h2 : pyUpper e.method = pyUpper method
      · simp [getEndpointInfo, firstConfigMatch, pyInJ, pyUpperJ, h1, h2, List.find?]
      · simp only [getEndpointInfo, firstConfigMatch, pyInJ, pyUpperJ, h1, h2, List.find?]
        simp [h1, h2, ih, firstConfigMatch]
    · simp only [getEndpointInfo, firstConfigMatch, pyInJ, pyUpperJ, h1, List.find?]
      simp [h1, ih, firstConfigMatch]

/-- The tail of the resolution chain on string tags. -/
theorem resolveTail_str (url method name : String) :
    resolveEndpoint.resolveTail (.str url) (.str method) (.str name) =
      .ok (.str (resolveTail3 url name method)) := by
  unfold resolveEndpoint.resolveTail resolveTail3
  by_cases hn : name = "" <;> by_cases hu : url = "" <;>
    simp [pyTruthy, pyStrJ, hn, hu]

/-- Counterexample to C2 as stated: with a single configured endpoint whose
url/method match but whose configured name is empty, rule 2 of the claim
yields the empty label, while the code (the walrus `elif` tests the
truthiness of the returned name) falls through to the name tag "NT". -/
theorem c2_resolution_counterexample :
    resolveEndpoint cfgC2 (.str "a/x") (.str "GET") (.str "NT") (.str "") = .ok (.str "NT") ∧
    resolveClaimC2 cfgC2 "" "a/x" "NT" "GET" = "" ∧
    "NT" ≠ "" := ⟨rfl, rfl, by decide⟩

/-- Claim C2 (amended): on string tags, resolution is route tag if
non-empty; else the first url/method-matching configured endpoint's name
if that name is non-empty; else the name tag if non-empty; else
"{method} {last url segment}" if the url tag is non-empty; else
"unknown". -/
theorem c2_resolution_amended (cfg : Config) (route url name method : String) :
    resolveEndpoint cfg (.str url) (.str method) (.str name) (.str route) =
      .ok (.str (resolveAmendedC2 cfg route url name method)) := by
  unfold resolveEndpoint resolveAmendedC2
  by_cases hr : route = ""
  · have hcfg : getEndpointInfoCfg (.str url) (.str method) cfg =
        .ok ((firstConfigMatch (configEndpoints cfg) url method).map fun e => (e.name, e.description.getD e.name)) := by
      match cfg with
      | none => rfl
      | some eps => exact getEndpointInfo_str url method eps
    rw [hcfg]
    cases hm : firstConfigMatch (configEndpoints cfg) url method with
    | none => simp [pyTruthy, hr, resolveTail_str]
    | some e =>
      by_cases hn : e.name = "" <;> simp [pyTruthy, hr, hn, resolveTail_str]
  · simp [pyTruthy, hr]

/-- The VU-pattern section leaves the stage counter alone. -/
theorem vusPhase_stage (st : TrackerState) (l : List Char) :
    (vusPhase st l).current_stage = st.current_stage := by
  unfold vusPhase
  split
  · rfl
  · split
    · split <;> rfl
    · rfl

/-- The progress section leaves the stage counter alone. -/
theorem progressPhase_stage (st : TrackerState) (l : List Char) :
    (progressPhase st l).current_stage = st.current_stage := by
  unfold progressPhase
  split <;> rfl

/-- The running-time section leaves the stage counter alone. -/
theorem runningPhase_stage (st : TrackerState) (l : List Char) :
    (runningPhase st l).current_stage = st.current_stage := by
  unfold runningPhase
  split <;> rfl

/-- Claim C6: the stage counter starts at 1; totalStages is the custom stage
count when (non-empty) custom stages were supplied and 5 otherwise; and
EVERY line containing "ramping up" case-insensitively increments the
counter by exactly one and sets the stage message to
"Stage {new}/{total}: Ramping up" — whatever was processed earlier on the
same line and however often the phrase already occurred. -/
theorem c6_ramping_up_increment :
    trackerInit.current_stage = 1 ∧
    (∀ l : List (String × ℤ), l ≠ [] → totalStagesOf (some l) = l.length) ∧
    totalStagesOf none = 5 ∧
    (∀ (ts : ℕ) (st : TrackerState) (line : String),
      listHasSub "ramping up".data ((pyStrip line).data.map Char.toLower) = true →
      (trackLine ts st line).current_stage = st.current_stage + 1 ∧
      (trackLine ts st line).stageMsg =
        "Stage " ++ toString (st.current_stage + 1) ++ "/" ++ toString ts ++ ": Ramping up") := by
  refine ⟨rfl, ?_, rfl, ?_⟩
  · intro l hl
    simp [totalStagesOf, List.isEmpty_iff, hl]
  · intro ts st line h
    unfold trackLine stagePhase
    simp only [h, if_true, if_pos]
    constructor
    · simp [vusPhase_stage, progressPhase_stage, runningPhase_stage]
    · simp [vusPhase_stage, progressPhase_stage, runningPhase_stage]

/-- Witness for C6 on a concrete k6-style line. -/
theorem c6_ramping_up_increment_witness :
    listHasSub "ramping up".data ((pyStrip "  default   Ramping up to 50 VUs  ").data.map Char.toLower) = true ∧
    (trackLine 5 trackerInit "  default   Ramping up to 50 VUs  ").current_stage = trackerInit.current_stage + 1 ∧
    (trackLine 5 trackerInit "  default   Ramping up to 50 VUs  ").stageMsg = "Stage 2/5: Ramping up" := by
  have hc : listHasSub "ramping up".data ((pyStrip "  default   Ramping up to 50 VUs  ").data.map Char.toLower) = true := by decide
  have h := c6_ramping_up_increment.2.2.2 5 trackerInit "  default   Ramping up to 50 VUs  " hc
  exact ⟨hc, h.1, h.2⟩

/-- Counterexample to C8 as stated: a line carrying the Point/vus
discriminator but no data field fails to parse as the expected record
structure, yet instead of being skipped it raises an uncaught KeyError at
`data['data']` — the whole batch aborts and the well-formed line behind
it is never processed.  (There is also no skipped tally anywhere: the
loop only counts all lines read.) -/
theorem c8_skip_counterexample :
    processLine (none : Config) initState c8BadLine = .error () ∧
    analyzeStream (none : Config) [c8BadLine, goodDurLine] = .error () := ⟨rfl, rfl⟩

/-- Claim C8 (amended): a line that json.loads rejects, or that decodes to a
non-dict, or to a dict without either recognized discriminator, or to a
duration record whose data mapping is present but whose value is not
strictly greater than zero, is dropped silently: the state is unchanged
and processing continues.  No skipped tally exists, and a recognized
record whose data field is missing or not a mapping aborts the batch
instead. -/
theorem c8_skip_amended (cfg : Config) (st : AnalyzeState) (line : Option JVal)
    (h : benignLine line = true) :
    processLine cfg st line = .ok st := by
  match line with
  | none => rfl
  | some .null | some (.jbool _) | some (.num _) | some (.str _) | some (.arr _) => rfl
  | some (.obj o) =>
    unfold benignLine at h
    unfold processLine
    by_cases h1 : typeIsPoint o && metricIs o "vus"
    · simp [h1] at h
    · by_cases h2 : typeIsPoint o && metricIs o "http_req_duration"
      · simp only [h1, h2, Bool.false_eq_true, if_false, if_true, ite_true, ite_false] at h ⊢
        cases hd : jget o "data" with
        | none => simp [hd] at h
        | some pd =>
          cases pd with
          | null | jbool _ | num _ | str _ | arr _ => simp [hd] at h
          | obj pdo =>
            simp only [hd] at h ⊢
            cases hg : pyGtZero (jgetD pdo "value" (.num 0)) with
            | error u => simp [hg]
            | ok b =>
              cases b with
              | false => simp [hg]
              | true => simp [hg] at h
      · simp [h1, h2]

/-- Witness for C8 amended: a duration record with value 0 is dropped with
the state unchanged. -/
theorem c8_skip_amended_witness :
    benignLine (durLine "t" (.num 0) []) = true ∧
    processLine (none : Config) initState (durLine "t" (.num 0) []) = .ok initState :=
  ⟨by decide, c8_skip_amended none initState (durLine "t" (.num 0) []) (by decide)⟩

/-- Counterexample to C3 as stated: a duration line whose url tag is the
number 5, against a config with one endpoint, bumps total_requests at
line 112 and then dies with a TypeError inside the config scan
(`clean_endpoint_url in url` on an int) — caught at line 155 — before the
per-endpoint count at line 149: the analysis finishes with
total_requests 1 but zero summed endpoint counts. -/
theorem c3_totals_counterexample :
    (match analyzeStream cfgC3 [c3BadLine] with
     | .ok st => some (st.total_requests, sumCounts st.endpoint_stats, st.error_count, sumErrors st.endpoint_stats)
     | .error _ => none) = some (1, 0, 0, 0) ∧
    (1 : ℕ) ≠ 0 := ⟨by decide, by decide⟩

/-- Sums over the endpoint table under a defaultdict update that changes a
tracked field by a constant. -/
theorem sum_map_epUpd (g : EpData → ℕ) (c : ℕ) (k : JVal) (f : EpData → EpData)
    (h1 : ∀ v, g (f v) = g v + c) (h2 : g (f epDefault) = c) :
    ∀ m : List (JVal × EpData),
      ((epUpd k f m).map (fun p => g p.2)).sum = (m.map (fun p => g p.2)).sum + c := by
  intro m
  induction m with
  | nil => simp [epUpd, h2]
  | cons p rest ih =>
    obtain ⟨k', v⟩ := p
    by_cases hk : labelBeq k' k
    · simp [epUpd, hk, h1]
      omega
    · simp [epUpd, hk, ih]
      omega

/-- Effect of one accepted point on the tracked sums. -/
theorem durUpdate_sums (st : AnalyzeState) (ep : JVal) (q : ℚ) (ts : JVal) :
    sumCounts (durUpdate st ep q ts).endpoint_stats = sumCounts st.endpoint_stats + 1 ∧
    sumErrors (durUpdate st ep q ts).endpoint_stats = sumErrors st.endpoint_stats ∧
    (durUpdate st ep q ts).total_requests = st.total_requests ∧
    (durUpdate st ep q ts).error_count = st.error_count := by
  refine ⟨?_, ?_, rfl, rfl⟩
  · exact sum_map_epUpd EpData.count 1 ep (durUpdateFn q ts) (fun v => rfl) rfl st.endpoint_stats
  · have h := sum_map_epUpd EpData.errors 0 ep (durUpdateFn q ts) (fun v => rfl) rfl st.endpoint_stats
    simpa [sumErrors, durUpdate] using h

/-- Effect of one counted error on the tracked sums. -/
theorem bumpErrors_sums (st : AnalyzeState) (ep : JVal) :
    sumCounts (bumpErrors st ep).endpoint_stats = sumCounts st.endpoint_stats ∧
    sumErrors (bumpErrors st ep).endpoint_stats = sumErrors st.endpoint_stats + 1 ∧
    (bumpErrors st ep).total_requests = st.total_requests ∧
    (bumpErrors st ep).error_count = st.error_count + 1 := by
  refine ⟨?_, ?_, rfl, rfl⟩
  · have h := sum_map_epUpd EpData.count 0 ep bumpErrorsFn (fun v => rfl) rfl st.endpoint_stats
    simpa [sumCounts, bumpErrors] using h
  · exact sum_map_epUpd EpData.errors 1 ep bumpErrorsFn (fun v => rfl) rfl st.endpoint_stats

/-- One line preserves the invariant: summed counts never exceed
total_requests, and summed errors track error_count exactly (lines 152
and 153 fire together or not at all). -/
theorem processLine_inv (cfg : Config) (st st' : AnalyzeState) (line : Option JVal)
    (h : processLine cfg st line = .ok st')
    (hc : sumCounts st.endpoint_stats ≤ st.total_requests)
    (he : sumErrors st.endpoint_stats = st.error_count) :
    sumCounts st'.endpoint_stats ≤ st'.total_requests ∧
    sumErrors st'.endpoint_stats = st'.error_count := by
  match line with
  | none =>
    injection h with h
    subst h
    exact ⟨hc, he⟩
  | some .null | some (.jbool _) | some (.num _) | some (.str _) | some (.arr _) =>
    injection h with h
    subst h
    exact ⟨hc, he⟩
  | some (.obj o) =>
    simp only [processLine] at h
    split at h
    · split at h
      · exact absurd h (by simp)
      · split at h
        · injection h with h
          subst h
          exact ⟨hc, he⟩
        · exact absurd h (by simp)
    · split at h
      · split at h
        · exact absurd h (by simp)
        · split at h
          · split at h
            · injection h with h
              subst h
              exact ⟨hc, he⟩
            · injection h with h
              subst h
              exact ⟨hc, he⟩
            · split at h
              · split at h
                · injection h with h
                  subst h
                  refine ⟨?_, he⟩
                  simpa using Nat.le_succ_of_le hc
                · exact absurd h (by simp)
                · split at h
                  · split at h
                    · injection h with h
                      subst h
                      rcases durUpdate_sums _ _ _ _ with ⟨hc1, he1, ht1, her1⟩
                      constructor
                      · rw [hc1, ht1]
                        simpa using Nat.succ_le_succ hc
                      · rw [he1, her1]
                        exact he
                    · split at h
                      · injection h with h
                        subst h
                        rcases bumpErrors_sums (durUpdate _ _ _ _) _ with ⟨hc2, he2, ht2, her2⟩
                        rcases durUpdate_sums _ _ _ _ with ⟨hc1, he1, ht1, her1⟩
                        constructor
                        · rw [hc2, ht2, hc1, ht1]
                          simpa using Nat.succ_le_succ hc
                        · rw [he2, her2, he1, her1]
                          simpa using he
                      · injection h with h
                        subst h
                        rcases durUpdate_sums _ _ _ _ with ⟨hc1, he1, ht1, her1⟩
                        constructor
                        · rw [hc1, ht1]
                          simpa using Nat.succ_le_succ hc
                        · rw [he1, her1]
                          exact he
                  · injection h with h
                    subst h
                    refine ⟨?_, he⟩
                    simpa using Nat.le_succ_of_le hc
              · exact absurd h (by simp)
          · exact absurd h (by simp)
      · injection h with h
        subst h
        exact ⟨hc, he⟩

/-- The invariant carried over the whole reading loop. -/
theorem analyzeFrom_inv (cfg : Config) :
    ∀ (lines : List (Option JVal)) (st st' : AnalyzeState),
      analyzeFrom cfg lines st = .ok st' →
      sumCounts st.endpoint_stats ≤ st.total_requests →
      sumErrors st.endpoint_stats = st.error_count →
      sumCounts st'.endpoint_stats ≤ st'.total_requests ∧
      sumErrors st'.endpoint_stats = st'.error_count := by
  intro lines
  induction lines with
  | nil =>
    intro st st' h hc he
    injection h with h
    subst h
    exact ⟨hc, he⟩
  | cons l rest ih =>
    intro st st' h hc he
    simp only [analyzeFrom] at h
    cases hp : processLine cfg st l with
    | error e =>
      rw [hp] at h
      exact absurd h (by simp)
    | ok st1 =>
      rw [hp] at h
      have hinv := processLine_inv cfg st st1 l hp hc he
      exact ih st1 st' h hinv.1 hinv.2

/-- Claim C3 (amended): after any completed analysis the sum of per-endpoint
counts is at most (not necessarily equal to) the global total_requests —
a caught TypeError/ValueError between the global increment and the
per-endpoint one loses the count — while the sum of per-endpoint errors
always equals the global error_count. -/
theorem c3_totals_amended (cfg : Config) (lines : List (Option JVal)) (st : AnalyzeState)
    (h : analyzeStream cfg lines = .ok st) :
    sumCounts st.endpoint_stats ≤ st.total_requests ∧
    sumErrors st.endpoint_stats = st.error_count :=
  analyzeFrom_inv cfg lines initState st h (by decide) (by decide)

/-- Witness for C3 amended on a one-line stream. -/
theorem c3_totals_amended_witness :
    analyzeStream (none : Config) [goodDurLine] = .ok c3WitnessState ∧
    sumCounts c3WitnessState.endpoint_stats ≤ c3WitnessState.total_requests ∧
    sumErrors c3WitnessState.endpoint_stats = c3WitnessState.error_count := by
  have h : analyzeStream (none : Config) [goodDurLine] = .ok c3WitnessState := rfl
  have h2 := c3_totals_amended none [goodDurLine] c3WitnessState h
  exact ⟨h, h2.1, h2.2⟩

/-- Unfolding of the per-window value (stated by hand: the mechanical
equation generator struggles with this definition). -/
theorem windowErrorRate_def (tl : List TEntry) (i : ℕ) :
    windowErrorRate tl i =
      match countErrors (windowSlice tl i) with
      | .error u => .error u
      | .ok errs =>
        .ok (round2 (if 0 < (windowSlice tl i).length then (errs : ℚ) / ((windowSlice tl i).length : ℚ) * 100 else 0)) := rfl

/-- Unfolding of the emitted per-sample value. -/
theorem pureRate_def (tl : List TEntry) (i : ℕ) :
    pureRate tl i =
      round2 (if 0 < (windowSlice tl i).length then
        (((windowSlice tl i).countP entryIsErrorPure : ℕ) : ℚ) / ((windowSlice tl i).length : ℚ) * 100
      else 0) := rfl

/-- The sampling loop on an exhausted timeline. -/
theorem errorRatesAux_nil (full : List TEntry) (i : ℕ) : errorRatesAux full i [] = .ok [] := rfl

/-- One step of the sampling loop. -/
theorem errorRatesAux_cons (full : List TEntry) (i : ℕ) (e : TEntry) (rest : List TEntry) :
    errorRatesAux full i (e :: rest) =
      if i % 5 = 0 then
        match windowErrorRate full i with
        | .error u => .error u
        | .ok r =>
          match errorRatesAux full (i + 1) rest with
          | .error u => .error u
          | .ok rs => .ok (r :: rs)
      else errorRatesAux full (i + 1) rest := rfl

/-- A successful window count is the count of entries satisfying the pure
error predicate. -/
theorem countErrors_ok : ∀ (w : List TEntry) (n : ℕ), countErrors w = .ok n → n = w.countP entryIsErrorPure := by
  intro w
  induction w with
  | nil =>
    intro n h
    injection h with h
    subst h
    rfl
  | cons e rest ih =>
    intro n h
    simp only [countErrors] at h
    cases hb : entryIsError e with
    | error u =>
      rw [hb] at h
      exact absurd h (by simp)
    | ok b =>
      rw [hb] at h
      cases hr : countErrors rest with
      | error u =>
        rw [hr] at h
        exact absurd h (by simp)
      | ok m =>
        rw [hr] at h
        injection h with h
        subst h
        have hpure : entryIsErrorPure e = b := by simp [entryIsErrorPure, hb]
        cases b <;> simp [List.countP_cons, hpure, ih m hr]

/-- Closed form of the sampling loop from an arbitrary start index. -/
theorem errorRatesAux_ok (full : List TEntry) :
    ∀ (l : List TEntry) (i : ℕ) (rs : List ℚ),
      errorRatesAux full i l = .ok rs →
      rs = (((List.range l.length).map (fun j => i + j)).filter (fun j => j % 5 = 0)).map (pureRate full) := by
  intro l
  induction l with
  | nil =>
    intro i rs h
    rw [errorRatesAux_nil] at h
    injection h with h
    subst h
    simp
  | cons e rest ih =>
    intro i rs h
    rw [errorRatesAux_cons] at h
    have hfun : ((fun j => i + j) ∘ Nat.succ) = fun j => (i + 1) + j := by
      funext j
      simp only [Function.comp]
      omega
    have hshift : ((List.range (rest.length + 1)).map (fun j => i + j)).filter (fun j => j % 5 = 0) =
        ((i :: (List.range rest.length).map (fun j => (i + 1) + j)).filter (fun j => j % 5 = 0)) := by
      rw [List.range_succ_eq_map]
      simp only [List.map_cons, List.map_map, hfun, Nat.add_zero]
    by_cases hi : i % 5 = 0
    · rw [if_pos hi] at h
      cases hw : windowErrorRate full i with
      | error u =>
        rw [hw] at h
        exact absurd h (by simp)
      | ok r =>
        rw [hw] at h
        cases ha : errorRatesAux full (i + 1) rest with
        | error u =>
          rw [ha] at h
          exact absurd h (by simp)
        | ok rs' =>
          rw [ha] at h
          injection h with h
          subst h
          have hrr : r = pureRate full i := by
            rw [windowErrorRate_def] at hw
            cases hce : countErrors (windowSlice full i) with
            | error u =>
              rw [hce] at hw
              exact absurd hw (by simp)
            | ok errs =>
              rw [hce] at hw
              injection hw with hw
              rw [pureRate_def, ← hw, countErrors_ok _ _ hce]
          rw [List.length_cons, hshift, List.filter_cons, if_pos (by simpa using hi),
              List.map_cons, hrr, ih (i + 1) rs' ha]
    · rw [if_neg hi] at h
      rw [List.length_cons, hshift, List.filter_cons, if_neg (by simpa using hi),
          ih (i + 1) rs h]

/-- Counterexample to C9 as stated: one timeline point with status tag
"600".  600 is at least 400, so the claim's criterion calls it an error
(rate 100), but the loop counts errors with startswith(('4','5')) and
emits 0. -/
theorem c9_error_rate_counterexample :
    errorRatesOf [c9Entry] = .ok [0] ∧
    claimRatesC9 [c9Entry] = [100] ∧
    (0 : ℚ) ≠ 100 := by
  refine ⟨?_, ?_, by norm_num⟩
  · have h2 : windowErrorRate [c9Entry] 0 = .ok (round2 (((0:ℕ):ℚ) / ((1:ℕ):ℚ) * 100)) := rfl
    rw [errorRatesOf]
    norm_num [errorRatesAux_cons, errorRatesAux_nil, h2, round2, roundHalfEven]
  · have h4 : claimRatesC9 [c9Entry] = [((1:ℕ) : ℚ) / ((1:ℕ) : ℚ) * 100] := rfl
    rw [h4]
    norm_num

/-- Claim C9 (amended): when the report loop completes, the emitted error
rates are exactly one value per index i with i mod 5 = 0 of the sorted
timeline, each equal to errors-in-window over points-in-window times 100
rounded to two decimals, over the half-open window from max(0, i-25) to
min(length, i+25), where a point is an error exactly when its status tag
string starts with '4' or '5'. -/
theorem c9_error_rate_amended (tl : List TEntry) (rs : List ℚ)
    (h : errorRatesOf tl = .ok rs) :
    rs = ((List.range tl.length).filter (fun i => i % 5 = 0)).map (pureRate tl) := by
  have h2 := errorRatesAux_ok tl tl 0 rs h
  simpa using h2

/-- Witness for C9 amended: six points, three of them status 500; sampled
indices 0 and 5 both see the whole list and emit 50. -/
theorem c9_error_rate_amended_witness :
    errorRatesOf c9WitnessTl = .ok [50, 50] ∧
    [(50:ℚ), 50] = ((List.range c9WitnessTl.length).filter (fun i => i % 5 = 0)).map (pureRate c9WitnessTl) := by
  have hw0 : windowErrorRate c9WitnessTl 0 = .ok (round2 (((3:ℕ):ℚ) / ((6:ℕ):ℚ) * 100)) := rfl
  have hw5 : windowErrorRate c9WitnessTl 5 = .ok (round2 (((3:ℕ):ℚ) / ((6:ℕ):ℚ) * 100)) := rfl
  have hrq : round2 (((3:ℕ):ℚ) / ((6:ℕ):ℚ) * 100) = 50 := by
    norm_num [round2, roundHalfEven]
  have h : errorRatesOf c9WitnessTl = .ok [50, 50] := by
    rw [errorRatesOf]
    simp only [c9WitnessTl] at hw0 hw5 ⊢
    norm_num [errorRatesAux_cons, errorRatesAux_nil, hw0, hw5, hrq, round2, roundHalfEven]
  exact ⟨h, c9_error_rate_amended c9WitnessTl [50, 50] h⟩
